import Mathlib

/-
Verification of the JSON-Schema-validating model field (src/models/fields.py).

The module defines two classes:
  * FieldReference - stores a dotted attribute path split on the dot and, when
    called with a model instance, walks getattr over the segments in order;
  * JSONSchemaField - a JSON column whose constructor normalises the schema
    specification (None / mapping / string / callable), whose get_schema
    resolves it against a model instance, whose validate_against_schema calls
    the jsonschema engine and translates its two exception kinds into the host
    framework's ValidationError, and whose deconstruct returns the original
    specification.

External collaborators (the Python stdlib json.loads, the jsonschema engine,
Django's base JSONField.validate and Field.deconstruct, and the host object
model's getattr over plain objects) are modelled as parameters or small
concrete functions, following the contracts stated for them in the design
document.  Methods are translated in explicit state-passing style: the state
carries the field object itself plus counters for the externally observable
calls (JSON parses, getattr reads, computed-spec invocations, engine calls,
base-validation calls), so that claims about what is and is not invoked are
provable.
-/

namespace DjangoJsonSchemaUtils

/-- Python values relevant to the module: JSON data (null, bool, int, string,
list, dict) plus plain objects carrying named attributes, which dotted-path
resolution walks with getattr. -/
inductive PyVal where
  | vnone
  | vbool (b : Bool)
  | vint (n : Int)
  | vstr (s : String)
  | vlist (xs : List PyVal)
  | vdict (entries : List (String × PyVal))
  | vobj (attrs : List (String × PyVal))

/-- Python exceptions that can cross the boundaries of this module:
the host framework's ValidationError (carrying a message and a code),
AttributeError from attribute resolution, and any other exception
(identified by a tag) raised by an external collaborator. -/
inductive PyErr where
  | validationError (message : String) (code : String)
  | attributeError (name : String)
  | otherError (tag : String)

/-- Outcome of one call to the jsonschema engine.  Per the design document the
engine either returns normally or raises one of two exception kinds, each
carrying a human-readable message: jsonschema.exceptions.ValidationError
(the data does not conform) or jsonschema.exceptions.SchemaError (the schema
itself is malformed). -/
inductive EngineOutcome where
  | ok
  | dataInvalid (message : String)
  | schemaInvalid (message : String)

/-- Outcome of one call to json.loads: a parsed Python value, a
json.decoder.JSONDecodeError (the only exception the field's constructor
catches), or any other exception, which the constructor lets propagate. -/
inductive LoadResult where
  | ok (v : PyVal)
  | decodeError
  | raised (e : PyErr)

/-- The schema argument of JSONSchemaField as passed at declaration time:
None, a string, a callable taking the model instance, or any other literal
value (in the intended use a mapping representing a JSON Schema document). -/
inductive SpecInput where
  | noneSpec
  | value (v : PyVal)
  | strSpec (s : String)
  | callableSpec (f : PyVal → Except PyErr PyVal)

/-- Splitting loop of the Python str.split method for a one-character
separator: accumulate characters until the separator, emit the accumulated
segment, continue; the trailing segment is always emitted, so splitting the
empty string yields one empty segment, exactly as in Python. -/
def splitCharAux (sep : Char) : List Char → List Char → List String
  | [], acc => [String.mk acc.reverse]
  | c :: rest, acc =>
    if c = sep then String.mk acc.reverse :: splitCharAux sep rest []
    else splitCharAux sep rest (c :: acc)

/-- Python str.split(sep) for a one-character separator. -/
def pySplit (s : String) (sep : Char) : List String := splitCharAux sep s.toList []

/-- FieldReference: its constructor stores the dotted path split on the dot
character. -/
structure FieldReference where
  source : List String

/-- FieldReference.__init__: source.split on the dot. -/
def FieldReference.init (source : String) : FieldReference :=
  ⟨pySplit source '.'⟩

/-- The value stored in the private schema slot after construction: a plain
value (parsed or literal), a FieldReference (for a non-JSON string), or the
user-supplied callable.  The latter two are exactly the callable cases
dispatched by get_schema. -/
inductive StoredSchema where
  | val (v : PyVal)
  | ref (r : FieldReference)
  | fn (f : PyVal → Except PyErr PyVal)

/-- Does the stored schema hold a mapping? -/
def StoredSchema.isMapping : StoredSchema → Bool
  | .val (.vdict _) => true
  | _ => false

/-- Is the stored schema a dotted-path field reference? -/
def StoredSchema.isFieldRef : StoredSchema → Bool
  | .ref _ => true
  | _ => false

/-- The JSONSchemaField object state set by its constructor: the original
schema argument, the normalised schema slot, the validator class passed on to
the engine, and the JSON column's configured encoder. -/
structure JSONSchemaField where
  schema_kwarg : SpecInput
  schema : StoredSchema
  format_checker : Option String
  encoder : Option String

/-- Counters of calls made to external collaborators, used to express which
operations are and are not performed. -/
structure Calls where
  parses : Nat
  getattrs : Nat
  computed_calls : Nat
  engine_calls : Nat
  base_calls : Nat

def Calls.zero : Calls := ⟨0, 0, 0, 0, 0⟩

/-- The state threaded through the field's methods: the field object itself
(read by every method, written by none) and the call counters. -/
structure St where
  calls : Calls
  self : JSONSchemaField

def tickGetattr (st : St) : St :=
  { st with calls := { st.calls with getattrs := st.calls.getattrs + 1 } }

def tickComputed (st : St) : St :=
  { st with calls := { st.calls with computed_calls := st.calls.computed_calls + 1 } }

def tickEngine (st : St) : St :=
  { st with calls := { st.calls with engine_calls := st.calls.engine_calls + 1 } }

def tickBase (st : St) : St :=
  { st with calls := { st.calls with base_calls := st.calls.base_calls + 1 } }

def tickParses (c : Calls) : Calls :=
  { c with parses := c.parses + 1 }

/-- State-and-exception monad for the field's methods. -/
def M (α : Type) : Type := St → Except PyErr α × St

def M.pure {α : Type} (a : α) : M α := fun st => (.ok a, st)

def M.throw {α : Type} (e : PyErr) : M α := fun st => (.error e, st)

def M.bind {α β : Type} (x : M α) (f : α → M β) : M β := fun st =>
  match x st with
  | (.ok a, st') => f a st'
  | (.error e, st') => (.error e, st')

/-- getattr of the host object model: reads a named attribute of a plain
object, raising AttributeError when the attribute is absent or the value has
no such attribute. -/
def getattr (obj : PyVal) (name : String) : Except PyErr PyVal :=
  match obj with
  | .vobj attrs =>
    match attrs.lookup name with
    | some v => .ok v
    | none => .error (.attributeError name)
  | _ => .error (.attributeError name)

/-- One counted getattr read. -/
def getattrM (obj : PyVal) (name : String) : M PyVal := fun st =>
  (getattr obj name, tickGetattr st)

/-- The loop body of FieldReference.__call__: obj starts at the instance and
is replaced by getattr of the next segment, in order. -/
def FieldReference.callFrom : List String → PyVal → M PyVal
  | [], obj => M.pure obj
  | attr :: rest, obj => M.bind (getattrM obj attr) (FieldReference.callFrom rest)

/-- FieldReference.__call__(instance): sequential getattr walk over the stored
segments starting from the instance. -/
def FieldReference.call (r : FieldReference) (model_instance : PyVal) : M PyVal :=
  FieldReference.callFrom r.source model_instance

/-- Model of json.loads as supplied to the constructor: the first argument is
the optional cls keyword (the field passes its encoder class there when one is
configured; with none the stdlib default decoder runs). -/
def Loads : Type := Option String → String → LoadResult

/-- Model of jsonschema.validate(value, schema, cls=format_checker),
returning one of the engine's three outcomes. -/
def Engine : Type := PyVal → PyVal → Option String → EngineOutcome

/-- Model of the base JSONField.validate of the host framework: returns
normally or raises (in particular the generic invalid error for values that
are not JSON-serialisable). -/
def BaseValidate : Type := PyVal → PyVal → Except PyErr Unit

/-- Values stored in the kwargs dict returned by deconstruct. -/
inductive KwargVal where
  | spec (s : SpecInput)
  | checker (c : Option String)
  | plain (v : PyVal)

/-- The kwargs dict, modelled as a partial map from keyword name to value. -/
def Kwargs : Type := String → Option KwargVal

/-- Python dict item assignment kwargs[k] = v. -/
def dictSet (kw : Kwargs) (k : String) (v : KwargVal) : Kwargs :=
  fun k' => if k' = k then some v else kw k'

/-- Model of the base Field.deconstruct of the host framework: name, import
path, positional args and keyword args computed from the field. -/
def BaseDeconstruct : Type := JSONSchemaField → String × String × List PyVal × Kwargs

/-- JSONSchemaField.__init__(schema, format_checker): store the original
schema argument, then normalise - None becomes the empty mapping; a string is
parsed once with json.loads (passing the column's encoder as the cls option
when configured), falling back to a FieldReference of the whole string only on
JSONDecodeError and letting every other exception propagate; anything else
(mapping or callable) is stored as given. -/
def JSONSchemaField.init (loads : Loads) (schema : SpecInput)
    (format_checker : Option String) (encoder : Option String)
    (c : Calls) : Except PyErr JSONSchemaField × Calls :=
  match schema with
  | .noneSpec => (.ok ⟨schema, .val (.vdict []), format_checker, encoder⟩, c)
  | .strSpec s =>
    match loads encoder s with
    | .ok v => (.ok ⟨schema, .val v, format_checker, encoder⟩, tickParses c)
    | .decodeError =>
      (.ok ⟨schema, .ref (FieldReference.init s), format_checker, encoder⟩, tickParses c)
    | .raised e => (.error e, tickParses c)
  | .value v => (.ok ⟨schema, .val v, format_checker, encoder⟩, c)
  | .callableSpec f => (.ok ⟨schema, .fn f, format_checker, encoder⟩, c)

/-- JSONSchemaField.get_schema(model_instance): return the stored schema,
calling it with the model instance first when it is callable (a
FieldReference or a user callable); exceptions from the call propagate. -/
def get_schema (model_instance : PyVal) : M PyVal := fun st =>
  match st.self.schema with
  | .val v => (.ok v, st)
  | .ref r => FieldReference.call r model_instance st
  | .fn f => (f model_instance, tickComputed st)

/-- One counted call of jsonschema.validate with the field's format checker. -/
def engineCallM (engine : Engine) (value schema : PyVal) : M EngineOutcome := fun st =>
  (.ok (engine value schema st.self.format_checker), tickEngine st)

/-- JSONSchemaField.validate_against_schema(value, model_instance): resolve
the schema (outside the try block), call the engine, and translate its two
exception kinds into the host ValidationError with codes invalid_data and
invalid_schema_definition, keeping the engine's message. -/
def validate_against_schema (engine : Engine) (value model_instance : PyVal) : M Unit :=
  M.bind (get_schema model_instance) fun schema =>
  M.bind (engineCallM engine value schema) fun outcome =>
  match outcome with
  | .ok => M.pure ()
  | .dataInvalid m => M.throw (.validationError m "invalid_data")
  | .schemaInvalid m => M.throw (.validationError m "invalid_schema_definition")

/-- One counted call of the base JSONField.validate. -/
def baseValidateM (base : BaseValidate) (value model_instance : PyVal) : M Unit := fun st =>
  (base value model_instance, tickBase st)

/-- JSONSchemaField.validate(value, model_instance): the base column
validation first, then the schema validation. -/
def validate (base : BaseValidate) (engine : Engine) (value model_instance : PyVal) : M Unit :=
  M.bind (baseValidateM base value model_instance) fun _ =>
  validate_against_schema engine value model_instance

/-- JSONSchemaField.deconstruct(): take the base deconstruction and overwrite
kwargs with the original schema argument and the format checker. -/
def deconstruct (baseDec : BaseDeconstruct) : M (String × String × List PyVal × Kwargs) :=
  fun st =>
  let q := baseDec st.self
  (.ok (q.1, q.2.1, q.2.2.1,
    dictSet (dictSet q.2.2.2 "schema" (.spec st.self.schema_kwarg))
      "format_checker" (.checker st.self.format_checker)), st)

/-- json.loads at the JSON text consisting of the single digit 5: the stdlib
parses it to the integer 5 (no JSONDecodeError); every other input is taken to
fail decoding. -/
def loads_digit : Loads := fun _ s => if s = "5" then .ok (.vint 5) else .decodeError

/-- json.loads for strings that are not JSON text: always JSONDecodeError. -/
def loads_fail : Loads := fun _ _ => .decodeError

/-- json.loads at the JSON text true, also modelling the stdlib behaviour of
the cls keyword: json.loads(s, cls=C) evaluates C(**kw).decode(s), and a
json.JSONEncoder subclass - the only kind of class a JSON column accepts as
its encoder - defines no decode method, so the call raises
AttributeError(decode) before any decoding happens; without cls the default
decoder parses the text true to the boolean True. -/
def stdlib_loads_true : Loads := fun cls s =>
  match cls with
  | some _ => .raised (.attributeError "decode")
  | none => if s = "true" then .ok (.vbool true) else .decodeError

/-- An engine that accepts everything against the empty-mapping schema and
rejects the data otherwise, as the JSON Schema standard prescribes for the
empty schema. -/
def engine_empty_ok : Engine := fun _ schema _ =>
  match schema with
  | .vdict [] => .ok
  | _ => .dataInvalid "does not conform"

/-- An engine whose validation always reports non-conforming data. -/
def engine_data_invalid : Engine := fun _ _ _ => .dataInvalid "value does not respect the schema"

/-- An engine whose validation always reports a malformed schema. -/
def engine_schema_invalid : Engine := fun _ _ _ => .schemaInvalid "schema is not valid"

/-- An engine that always accepts. -/
def engine_ok : Engine := fun _ _ _ => .ok

/-- A field declared with a literal empty-mapping schema. -/
def field_lit : JSONSchemaField := ⟨.value (.vdict []), .val (.vdict []), none, none⟩

/-- Fresh method state over the literal field. -/
def st_lit : St := ⟨Calls.zero, field_lit⟩

/-- A field declared with a literal one-entry mapping schema. -/
def field_map : JSONSchemaField :=
  ⟨.value (.vdict [("type", .vstr "integer")]),
    .val (.vdict [("type", .vstr "integer")]), none, none⟩

/-- Fresh method state over the one-entry-mapping field. -/
def st_map : St := ⟨Calls.zero, field_map⟩

/-- A model instance with attribute a holding an object whose attribute b
holds the integer 5. -/
def inst_ab : PyVal := .vobj [("a", .vobj [("b", .vint 5)])]

/-- The inner object of inst_ab. -/
def inst_b : PyVal := .vobj [("b", .vint 5)]

/-- A field declared with the non-JSON string a.b, hence a dotted-path
reference. -/
def field_ref_ab : JSONSchemaField :=
  ⟨.strSpec "a.b", .ref (FieldReference.init "a.b"), none, none⟩

/-- Fresh method state over the dotted-path field. -/
def st_ref_ab : St := ⟨Calls.zero, field_ref_ab⟩

/-- A field whose dotted-path reference names a single missing attribute. -/
def field_ref_missing : JSONSchemaField :=
  ⟨.strSpec "a", .ref (FieldReference.init "a"), none, none⟩

/-- Fresh method state over the missing-attribute field. -/
def st_ref_missing : St := ⟨Calls.zero, field_ref_missing⟩

/-- A computed-spec callable that raises. -/
def fn_raise : PyVal → Except PyErr PyVal := fun _ => .error (.otherError "boom")

/-- A field declared with the raising callable. -/
def field_fn_raise : JSONSchemaField := ⟨.callableSpec fn_raise, .fn fn_raise, none, none⟩

/-- Fresh method state over the raising-callable field. -/
def st_fn_raise : St := ⟨Calls.zero, field_fn_raise⟩

/-- A field declared with schema None. -/
def field_none : JSONSchemaField := ⟨.noneSpec, .val (.vdict []), none, none⟩

/-- Fresh method state over the None-spec field. -/
def st_none : St := ⟨Calls.zero, field_none⟩

/-- A base column validation that raises the generic invalid error, as the
JSON column does for values that are not JSON-serialisable. -/
def base_fail : BaseValidate := fun _ _ =>
  .error (.validationError "Value must be valid JSON." "invalid")

/-- A base column validation that accepts. -/
def base_ok : BaseValidate := fun _ _ => .ok ()

/-- A base deconstruction returning a fixed name and path and empty kwargs. -/
def baseDec_empty : BaseDeconstruct := fun _ =>
  ("json_schema_field", "models.fields.JSONSchemaField", [], fun _ => none)

end DjangoJsonSchemaUtils

namespace DjangoJsonSchemaUtils

/-- The getattr walk changes no state component except the getattr counter:
the field object and the other call counters are untouched. -/
theorem callFrom_state (l : List String) (obj : PyVal) (st : St) :
    ((FieldReference.callFrom l obj) st).2.self = st.self ∧
    ((FieldReference.callFrom l obj) st).2.calls.parses = st.calls.parses ∧
    ((FieldReference.callFrom l obj) st).2.calls.engine_calls = st.calls.engine_calls ∧
    ((FieldReference.callFrom l obj) st).2.calls.computed_calls = st.calls.computed_calls ∧
    ((FieldReference.callFrom l obj) st).2.calls.base_calls = st.calls.base_calls := by
  induction l generalizing obj st with
  | nil => exact ⟨rfl, rfl, rfl, rfl, rfl⟩
  | cons a t ih =>
    simp only [FieldReference.callFrom, M.bind, getattrM]
    cases hg : getattr obj a with
    | ok v => exact ih v (tickGetattr st)
    | error e => exact ⟨rfl, rfl, rfl, rfl, rfl⟩

/-- get_schema never changes the field object. -/
theorem get_schema_self (mi : PyVal) (st : St) :
    ((get_schema mi) st).2.self = st.self := by
  simp only [get_schema]
  cases hs : st.self.schema with
  | val v => rfl
  | ref r => exact (callFrom_state r.source mi st).1
  | fn f => rfl

/-- get_schema performs no JSON parse. -/
theorem get_schema_parses (mi : PyVal) (st : St) :
    ((get_schema mi) st).2.calls.parses = st.calls.parses := by
  simp only [get_schema]
  cases hs : st.self.schema with
  | val v => rfl
  | ref r => exact (callFrom_state r.source mi st).2.1
  | fn f => rfl

/-- validate_against_schema never changes the field object. -/
theorem validate_against_schema_self (engine : Engine) (v mi : PyVal) (st : St) :
    ((validate_against_schema engine v mi) st).2.self = st.self := by
  have hp := get_schema_self mi st
  simp only [validate_against_schema, M.bind]
  cases hg : (get_schema mi) st with
  | mk r st₁ =>
    rw [hg] at hp
    cases r with
    | error e => exact hp
    | ok sch =>
      simp only [engineCallM]
      cases engine v sch st₁.self.format_checker with
      | ok => exact hp
      | dataInvalid m => exact hp
      | schemaInvalid m => exact hp

/-- validate_against_schema performs no JSON parse. -/
theorem validate_against_schema_parses (engine : Engine) (v mi : PyVal) (st : St) :
    ((validate_against_schema engine v mi) st).2.calls.parses = st.calls.parses := by
  have hp := get_schema_parses mi st
  simp only [validate_against_schema, M.bind]
  cases hg : (get_schema mi) st with
  | mk r st₁ =>
    rw [hg] at hp
    cases r with
    | error e => exact hp
    | ok sch =>
      simp only [engineCallM]
      cases engine v sch st₁.self.format_checker with
      | ok => exact hp
      | dataInvalid m => exact hp
      | schemaInvalid m => exact hp

/-- validate never changes the field object. -/
theorem validate_self (base : BaseValidate) (engine : Engine) (v mi : PyVal) (st : St) :
    ((validate base engine v mi) st).2.self = st.self := by
  simp only [validate, M.bind, baseValidateM]
  cases base v mi with
  | ok u => exact validate_against_schema_self engine v mi (tickBase st)
  | error e => rfl

/-- validate performs no JSON parse. -/
theorem validate_parses (base : BaseValidate) (engine : Engine) (v mi : PyVal) (st : St) :
    ((validate base engine v mi) st).2.calls.parses = st.calls.parses := by
  simp only [validate, M.bind, baseValidateM]
  cases base v mi with
  | ok u => exact validate_against_schema_parses engine v mi (tickBase st)
  | error e => rfl

/-- The constructor records the original schema argument and the format
checker verbatim whenever it returns a field. -/
theorem init_ok_fields (loads : Loads) (input : SpecInput) (fc enc : Option String)
    (c : Calls) (f : JSONSchemaField)
    (h : (JSONSchemaField.init loads input fc enc c).1 = .ok f) :
    f.schema_kwarg = input ∧ f.format_checker = fc := by
  cases input with
  | noneSpec =>
    simp only [JSONSchemaField.init] at h
    injection h with h
    subst h
    exact ⟨rfl, rfl⟩
  | value v =>
    simp only [JSONSchemaField.init] at h
    injection h with h
    subst h
    exact ⟨rfl, rfl⟩
  | callableSpec g =>
    simp only [JSONSchemaField.init] at h
    injection h with h
    subst h
    exact ⟨rfl, rfl⟩
  | strSpec s =>
    simp only [JSONSchemaField.init] at h
    cases hl : loads enc s with
    | ok v =>
      rw [hl] at h
      injection h with h
      subst h
      exact ⟨rfl, rfl⟩
    | decodeError =>
      rw [hl] at h
      injection h with h
      subst h
      exact ⟨rfl, rfl⟩
    | raised e =>
      rw [hl] at h
      exact absurd h (by simp)

end DjangoJsonSchemaUtils

namespace DjangoJsonSchemaUtils

/-- C1: when schema resolution succeeds, validate_against_schema returns
normally exactly when the engine reports no failure; when the engine reports
non-conforming data it raises the host ValidationError with code invalid_data
and the engine message verbatim; when the engine reports a malformed schema it
raises the host ValidationError with code invalid_schema_definition and the
engine message verbatim. -/
theorem validate_against_schema_error_mapping (engine : Engine) (v mi : PyVal)
    (st st₁ : St) (sch : PyVal)
    (hres : (get_schema mi) st = (.ok sch, st₁)) :
    (validate_against_schema engine v mi) st =
      (match engine v sch st₁.self.format_checker with
        | .ok => (.ok (), tickEngine st₁)
        | .dataInvalid m => (.error (.validationError m "invalid_data"), tickEngine st₁)
        | .schemaInvalid m =>
            (.error (.validationError m "invalid_schema_definition"), tickEngine st₁)) := by
  simp only [validate_against_schema, M.bind, hres, engineCallM]
  cases engine v sch st₁.self.format_checker with
  | ok => rfl
  | dataInvalid m => rfl
  | schemaInvalid m => rfl

/-- C1 witness: on a literal-mapping field, an engine reporting non-conforming
data makes the call raise the host error with code invalid_data and the engine
message. -/
theorem validate_against_schema_error_mapping_witness :
    (validate_against_schema engine_data_invalid (.vint 5) (.vobj [])) st_lit =
      (.error (.validationError "value does not respect the schema" "invalid_data"),
        tickEngine st_lit) :=
  validate_against_schema_error_mapping engine_data_invalid (.vint 5) (.vobj [])
    st_lit st_lit (.vdict []) rfl

/-- C2 counterexample: json.loads parses the string consisting of the digit 5
to the integer 5, so the field constructed from that string spec stores the
integer 5, which is neither a mapping nor a dotted-path field reference. -/
theorem string_spec_not_always_mapping_or_ref :
    (JSONSchemaField.init loads_digit (.strSpec "5") none none Calls.zero).1 =
      .ok ⟨.strSpec "5", .val (.vint 5), none, none⟩ ∧
    StoredSchema.isMapping (.val (.vint 5)) = false ∧
    StoredSchema.isFieldRef (.val (.vint 5)) = false :=
  ⟨rfl, rfl, rfl⟩

/-- C2 (amended): construction from a string spec performs exactly one JSON
parse of the string; when the parse succeeds the stored schema is the parsed
JSON value (the parsed mapping whenever the text denotes one), when it fails
the whole string is stored as a dotted-path reference, and validation performs
no JSON parse. -/
theorem string_spec_parsed_once (loads loads₁ loads₂ : Loads) (s s₁ s₂ : String)
    (fc fc₁ fc₂ enc enc₁ enc₂ : Option String) (c c₁ c₂ : Calls) (v : PyVal)
    (base : BaseValidate) (engine : Engine) (value mi : PyVal) (st : St)
    (h₁ : loads₁ enc₁ s₁ = .ok v) (h₂ : loads₂ enc₂ s₂ = .decodeError) :
    (JSONSchemaField.init loads (.strSpec s) fc enc c).2.parses = c.parses + 1 ∧
    (JSONSchemaField.init loads₁ (.strSpec s₁) fc₁ enc₁ c₁).1 =
      .ok ⟨.strSpec s₁, .val v, fc₁, enc₁⟩ ∧
    (JSONSchemaField.init loads₂ (.strSpec s₂) fc₂ enc₂ c₂).1 =
      .ok ⟨.strSpec s₂, .ref ⟨pySplit s₂ '.'⟩, fc₂, enc₂⟩ ∧
    ((validate base engine value mi) st).2.calls.parses = st.calls.parses := by
  refine ⟨?_, ?_, ?_, validate_parses base engine value mi st⟩
  · simp only [JSONSchemaField.init]
    cases loads enc s with
    | ok v' => rfl
    | decodeError => rfl
    | raised e => rfl
  · simp only [JSONSchemaField.init, h₁]
  · simp only [JSONSchemaField.init, h₂, FieldReference.init]

/-- C2 witness: the text true parses to the boolean True and is stored as
such; the non-JSON text a.b is stored as the two-segment reference; a fresh
validation run performs no parse. -/
theorem string_spec_parsed_once_witness :
    (JSONSchemaField.init stdlib_loads_true (.strSpec "true") none none Calls.zero).2.parses
        = Calls.zero.parses + 1 ∧
    (JSONSchemaField.init stdlib_loads_true (.strSpec "true") none none Calls.zero).1 =
      .ok ⟨.strSpec "true", .val (.vbool true), none, none⟩ ∧
    (JSONSchemaField.init loads_fail (.strSpec "a.b") none none Calls.zero).1 =
      .ok ⟨.strSpec "a.b", .ref ⟨pySplit "a.b" '.'⟩, none, none⟩ ∧
    ((validate base_ok engine_ok (.vint 5) (.vobj [])) st_lit).2.calls.parses
        = st_lit.calls.parses :=
  string_spec_parsed_once stdlib_loads_true stdlib_loads_true loads_fail "true" "true" "a.b"
    none none none none none none Calls.zero Calls.zero Calls.zero (.vbool true)
    base_ok engine_ok (.vint 5) (.vobj []) st_lit rfl rfl

/-- C3: a non-JSON string spec is stored split on the dot into ordered
segments, and resolution walks attribute reads from the instance through each
segment in order; in particular a field holding the reference built from the
string a.b resolves, on an instance whose attribute a has an attribute b
holding 5, to 5. -/
theorem dotted_path_resolution (loads : Loads) (s : String) (fc enc : Option String)
    (c : Calls) (st : St) (mi j : PyVal)
    (hload : loads enc s = .decodeError)
    (hself : st.self.schema = .ref ⟨["a", "b"]⟩)
    (ha : getattr mi "a" = .ok j) (hb : getattr j "b" = .ok (.vint 5)) :
    (JSONSchemaField.init loads (.strSpec s) fc enc c).1 =
      .ok ⟨.strSpec s, .ref ⟨pySplit s '.'⟩, fc, enc⟩ ∧
    FieldReference.init "a.b" = ⟨["a", "b"]⟩ ∧
    ((get_schema mi) st).1 = .ok (.vint 5) := by
  refine ⟨?_, rfl, ?_⟩
  · simp only [JSONSchemaField.init, hload, FieldReference.init]
  · simp only [get_schema, hself, FieldReference.call,
      FieldReference.callFrom, M.bind, getattrM, ha, hb, M.pure]

/-- C3 witness: the concrete two-level instance resolves the a.b reference to
the integer 5. -/
theorem dotted_path_resolution_witness :
    (JSONSchemaField.init loads_fail (.strSpec "a.b") none none Calls.zero).1 =
      .ok ⟨.strSpec "a.b", .ref ⟨pySplit "a.b" '.'⟩, none, none⟩ ∧
    FieldReference.init "a.b" = ⟨["a", "b"]⟩ ∧
    ((get_schema inst_ab) st_ref_ab).1 = .ok (.vint 5) :=
  dotted_path_resolution loads_fail "a.b" none none Calls.zero st_ref_ab inst_ab inst_b
    rfl rfl rfl rfl

/-- C4: when schema resolution succeeds, every failure the engine reports is
caught at the validation boundary and re-raised as the host ValidationError
carrying the mapped code and the engine message; no engine exception reaches
the caller in its original form. -/
theorem engine_errors_translated (engine : Engine) (v mi : PyVal) (st st₁ : St)
    (sch : PyVal) (hres : (get_schema mi) st = (.ok sch, st₁)) :
    ((validate_against_schema engine v mi) st).1 = .ok () ∨
    (∃ m, engine v sch st₁.self.format_checker = .dataInvalid m ∧
      ((validate_against_schema engine v mi) st).1 =
        .error (.validationError m "invalid_data")) ∨
    (∃ m, engine v sch st₁.self.format_checker = .schemaInvalid m ∧
      ((validate_against_schema engine v mi) st).1 =
        .error (.validationError m "invalid_schema_definition")) := by
  simp only [validate_against_schema, M.bind, hres, engineCallM]
  cases he : engine v sch st₁.self.format_checker with
  | ok => exact .inl rfl
  | dataInvalid m => exact .inr (.inl ⟨m, rfl, rfl⟩)
  | schemaInvalid m => exact .inr (.inr ⟨m, rfl, rfl⟩)

/-- C4 witness: an engine reporting a malformed schema surfaces as the host
error with code invalid_schema_definition. -/
theorem engine_errors_translated_witness :
    ((validate_against_schema engine_schema_invalid (.vint 5) (.vobj [])) st_lit).1 = .ok () ∨
    (∃ m, engine_schema_invalid (.vint 5) (.vdict []) st_lit.self.format_checker
        = .dataInvalid m ∧
      ((validate_against_schema engine_schema_invalid (.vint 5) (.vobj [])) st_lit).1 =
        .error (.validationError m "invalid_data")) ∨
    (∃ m, engine_schema_invalid (.vint 5) (.vdict []) st_lit.self.format_checker
        = .schemaInvalid m ∧
      ((validate_against_schema engine_schema_invalid (.vint 5) (.vobj [])) st_lit).1 =
        .error (.validationError m "invalid_schema_definition")) :=
  engine_errors_translated engine_schema_invalid (.vint 5) (.vobj []) st_lit st_lit
    (.vdict []) rfl

/-- C5: the constructor passes the column's configured encoder class as the
cls argument of json.loads, which names the decoder class; the stdlib then
calls decode on an encoder instance and raises AttributeError, which the
constructor does not catch - so with an encoder configured, constructing a
field from a valid-JSON string crashes instead of parsing, while the very same
string parses successfully without the encoder. -/
theorem encoder_as_decoder_crashes :
    (JSONSchemaField.init stdlib_loads_true (.strSpec "true") none
        (some "DjangoJSONEncoder") Calls.zero).1 =
      .error (.attributeError "decode") ∧
    (JSONSchemaField.init stdlib_loads_true (.strSpec "true") none none Calls.zero).1 =
      .ok ⟨.strSpec "true", .val (.vbool true), none, none⟩ :=
  ⟨rfl, rfl⟩

/-- C6: deconstruct returns kwargs whose schema entry is the original schema
argument exactly as passed at declaration, not the parsed or normalised one,
and whose format_checker entry is the original format checker. -/
theorem deconstruct_returns_original (baseDec : BaseDeconstruct) (loads : Loads)
    (input : SpecInput) (fc enc : Option String) (c : Calls) (f : JSONSchemaField)
    (st : St) (hinit : (JSONSchemaField.init loads input fc enc c).1 = .ok f)
    (hst : st.self = f) :
    (((deconstruct baseDec) st).1.map
        (fun q => (q.2.2.2 "schema", q.2.2.2 "format_checker"))) =
      .ok (some (.spec input), some (.checker fc)) := by
  obtain ⟨hk, hf⟩ := init_ok_fields loads input fc enc c f hinit
  simp only [deconstruct, Except.map, dictSet, hst, hk, hf]
  simp

/-- C6 witness: deconstructing the literal-mapping field returns the original
empty-mapping spec and the original absent format checker. -/
theorem deconstruct_returns_original_witness :
    (((deconstruct baseDec_empty) st_lit).1.map
        (fun q => (q.2.2.2 "schema", q.2.2.2 "format_checker"))) =
      .ok (some (.spec (.value (.vdict []))), some (.checker none)) :=
  deconstruct_returns_original baseDec_empty loads_fail (.value (.vdict [])) none none
    Calls.zero field_lit st_lit rfl rfl

/-- C7: an exception raised during dotted-path resolution or by a computed
callable propagates out of validate_against_schema exactly as raised - it is
not converted into the host ValidationError - and the engine is never
reached. -/
theorem resolution_errors_propagate (engine : Engine) (v mi₁ mi₂ : PyVal)
    (st₁ st₂ st' : St) (e₁ e₂ : PyErr) (r : FieldReference)
    (g : PyVal → Except PyErr PyVal)
    (href : st₁.self.schema = .ref r)
    (hwalk : (FieldReference.call r mi₁) st₁ = (.error e₁, st'))
    (hfn : st₂.self.schema = .fn g) (hg : g mi₂ = .error e₂) :
    (validate_against_schema engine v mi₁) st₁ = (.error e₁, st') ∧
    st'.calls.engine_calls = st₁.calls.engine_calls ∧
    (validate_against_schema engine v mi₂) st₂ = (.error e₂, tickComputed st₂) ∧
    (tickComputed st₂).calls.engine_calls = st₂.calls.engine_calls := by
  refine ⟨?_, ?_, ?_, rfl⟩
  · simp only [validate_against_schema, M.bind, get_schema, href, hwalk]
  · have h := (callFrom_state r.source mi₁ st₁).2.2.1
    simp only [FieldReference.call] at hwalk
    rw [hwalk] at h
    exact h
  · simp only [validate_against_schema, M.bind, get_schema, hfn, hg]

/-- C7 witness: a missing attribute surfaces as the raw AttributeError and a
raising computed callable surfaces as its own raw error, with the engine
counter untouched in both runs. -/
theorem resolution_errors_propagate_witness :
    (validate_against_schema engine_ok (.vint 5) (.vobj [])) st_ref_missing =
      (.error (.attributeError "a"), tickGetattr st_ref_missing) ∧
    (tickGetattr st_ref_missing).calls.engine_calls = st_ref_missing.calls.engine_calls ∧
    (validate_against_schema engine_ok (.vint 5) (.vobj [])) st_fn_raise =
      (.error (.otherError "boom"), tickComputed st_fn_raise) ∧
    (tickComputed st_fn_raise).calls.engine_calls = st_fn_raise.calls.engine_calls :=
  resolution_errors_propagate engine_ok (.vint 5) (.vobj []) (.vobj [])
    st_ref_missing st_fn_raise (tickGetattr st_ref_missing)
    (.attributeError "a") (.otherError "boom") (FieldReference.init "a") fn_raise
    rfl rfl rfl rfl

/-- C8: a None spec is stored as and resolves to the empty mapping, a literal
value spec resolves to that same value unchanged, and validating any value on
a None-spec field succeeds whenever the engine accepts everything against the
empty schema. -/
theorem none_and_literal_specs (loads : Loads) (fc enc : Option String) (c : Calls)
    (v value mi mi' mi'' : PyVal) (st_v st_n : St) (engine : Engine)
    (hv : st_v.self.schema = .val v)
    (hn : st_n.self.schema = .val (.vdict []))
    (hempty : ∀ x, engine x (.vdict []) st_n.self.format_checker = .ok) :
    JSONSchemaField.init loads .noneSpec fc enc c =
      (.ok ⟨.noneSpec, .val (.vdict []), fc, enc⟩, c) ∧
    JSONSchemaField.init loads (.value v) fc enc c =
      (.ok ⟨.value v, .val v, fc, enc⟩, c) ∧
    (get_schema mi) st_v = (.ok v, st_v) ∧
    (get_schema mi') st_n = (.ok (.vdict []), st_n) ∧
    (validate_against_schema engine value mi'') st_n = (.ok (), tickEngine st_n) := by
  refine ⟨rfl, rfl, ?_, ?_, ?_⟩
  · simp only [get_schema, hv]
  · simp only [get_schema, hn]
  · simp only [validate_against_schema, M.bind, get_schema, hn, engineCallM, hempty, M.pure]

/-- C8 witness: the empty-schema field accepts the value 7 under an engine
that accepts everything against the empty schema, and a literal mapping
resolves to itself. -/
theorem none_and_literal_specs_witness :
    JSONSchemaField.init loads_fail .noneSpec none none Calls.zero =
      (.ok ⟨.noneSpec, .val (.vdict []), none, none⟩, Calls.zero) ∧
    JSONSchemaField.init loads_fail (.value (.vdict [("type", .vstr "integer")]))
        none none Calls.zero =
      (.ok ⟨.value (.vdict [("type", .vstr "integer")]),
        .val (.vdict [("type", .vstr "integer")]), none, none⟩, Calls.zero) ∧
    (get_schema (.vobj [])) st_map = (.ok (.vdict [("type", .vstr "integer")]), st_map) ∧
    (get_schema (.vobj [])) st_none = (.ok (.vdict []), st_none) ∧
    (validate_against_schema engine_empty_ok (.vint 7) (.vobj [])) st_none =
      (.ok (), tickEngine st_none) :=
  none_and_literal_specs loads_fail none none Calls.zero
    (.vdict [("type", .vstr "integer")]) (.vint 7) (.vobj []) (.vobj []) (.vobj [])
    st_map st_none engine_empty_ok rfl rfl (fun _ => rfl)

/-- C9: no method of the field mutates the field object: get_schema,
validate_against_schema and validate leave the stored specification state -
the original schema argument, the normalised schema and the format checker -
unchanged, and deconstruct leaves the whole method state untouched. -/
theorem field_spec_immutable (engine : Engine) (base : BaseValidate)
    (baseDec : BaseDeconstruct) (v mi : PyVal) (st : St) :
    ((get_schema mi) st).2.self = st.self ∧
    ((validate_against_schema engine v mi) st).2.self = st.self ∧
    ((validate base engine v mi) st).2.self = st.self ∧
    ((deconstruct baseDec) st).2 = st :=
  ⟨get_schema_self mi st, validate_against_schema_self engine v mi st,
    validate_self base engine v mi st, rfl⟩

/-- C10: validate runs the base column validation first; when the base raises,
its error propagates with the schema spec never resolved - no getattr walk, no
computed call, no engine call, no parse, only the base call is recorded - and
when the base returns normally, validate continues exactly as
validate_against_schema. -/
theorem validate_base_first (base₁ base₂ : BaseValidate) (engine : Engine)
    (v₁ v₂ mi₁ mi₂ : PyVal) (st₁ st₂ : St) (e : PyErr)
    (hfail : base₁ v₁ mi₁ = .error e) (hok : base₂ v₂ mi₂ = .ok ()) :
    (validate base₁ engine v₁ mi₁) st₁ = (.error e, tickBase st₁) ∧
    (validate base₂ engine v₂ mi₂) st₂ =
      (validate_against_schema engine v₂ mi₂) (tickBase st₂) := by
  constructor
  · simp only [validate, M.bind, baseValidateM, hfail]
  · simp only [validate, M.bind, baseValidateM, hok]

/-- C10 witness: a failing base validation on a dotted-path field propagates
the generic invalid error with only the base call recorded, and a passing base
validation hands over to the schema validation. -/
theorem validate_base_first_witness :
    (validate base_fail engine_ok (.vstr "x") (.vobj [])) st_ref_ab =
      (.error (.validationError "Value must be valid JSON." "invalid"),
        tickBase st_ref_ab) ∧
    (validate base_ok engine_ok (.vint 5) (.vobj [])) st_lit =
      (validate_against_schema engine_ok (.vint 5) (.vobj [])) (tickBase st_lit) :=
  validate_base_first base_fail base_ok engine_ok (.vstr "x") (.vint 5) (.vobj [])
    (.vobj []) st_ref_ab st_lit
    (.validationError "Value must be valid JSON." "invalid") rfl rfl

end DjangoJsonSchemaUtils
